import Mathlib

/-!
# Verification of the CSV table-recovery parser and resolution engine

Shallow embedding of the core logic of `src/App.tsx`:
* string primitives modelling the JavaScript operations used by the code
  (`String.prototype.trim`, `parseInt(s, 10)`, the `||` fallback on strings,
  `toUpperCase`, `Array.prototype.includes/find/filter/sort`);
* the four record types (`PartnerMaster`, `CardUIConfig`, `ProductDetailConfig`,
  `DisplayRules`) and the parsed snapshot `ParsedData`;
* the resolution engine: `administrativeView` (the `dashboardRows` memo) and
  `eligibleCards` (the `mobileCards` memo);
* the table-recovery parser: the per-row state machine of `fetchData`
  (blank-row reset, header detection, positional record building), run as a
  left fold over the grid.

Conventions of the embedding:
* A JS `undefined` string field is modelled as `""` (both are falsy for `||`
  and both produce `''` in the record builder, so the code never distinguishes
  them).
* `parseInt` returning `NaN` is modelled as `none : Option Int`.  Per the
  ECMAScript `SortCompare` operation a comparator result of `NaN` is coerced
  to `+0`, so the comparator `jsCmp` returns `0` when either priority is
  `none`.
* `Array.prototype.sort` is required to be stable since ES2019; it is
  modelled by `List.insertionSort` with the relation "comparator result ≤ 0"
  (equal-comparing elements keep their original relative order).
* The whitespace class used by `trim` is restricted to the ASCII whitespace
  characters; all data relevant to the claims is ASCII.
-/

/-- ASCII whitespace, the fragment of the `TrimString` whitespace class
exercised by the claims. -/
def isJsWhitespace (c : Char) : Bool :=
  c == ' ' || c == '\t' || c == '\n' || c == '\r' || c == '\x0b' || c == '\x0c'

/-- Model of `String.prototype.trim`: drop whitespace from both ends. -/
def jsTrim (s : String) : String :=
  ⟨List.rdropWhile isJsWhitespace (s.data.dropWhile isJsWhitespace)⟩

/-- Numeric value of a list of decimal digit characters, most significant
first (the accumulation `parseInt` performs on the digit prefix). -/
def digitsVal (l : List Char) : Nat :=
  l.foldl (fun acc c => acc * 10 + (c.toNat - '0'.toNat)) 0

/-- Model of `parseInt(s, 10)`: skip leading whitespace, read an optional
sign, then the longest prefix of decimal digits; `NaN` (here `none`) if that
prefix is empty.  Total: no input throws. -/
def jsParseInt (s : String) : Option Int :=
  let cs := s.data.dropWhile isJsWhitespace
  let sign : Int := if cs.headD ' ' = '-' then -1 else 1
  let rest : List Char :=
    if cs.headD ' ' = '-' ∨ cs.headD ' ' = '+' then cs.tail else cs
  let ds := rest.takeWhile Char.isDigit
  if ds.isEmpty then none else some (sign * (digitsVal ds : Int))

/-- Model of `s || fallback` for strings (with `undefined` modelled as `""`,
both falsy). -/
def jsOr (s fallback : String) : String :=
  if s = "" then fallback else s

/-- ASCII case mapping of `String.prototype.toUpperCase` (the status values
compared by the code are ASCII). -/
def asciiUpperChar (c : Char) : Char :=
  if 97 ≤ c.toNat ∧ c.toNat ≤ 122 then Char.ofNat (c.toNat - 32) else c

/-- Model of `s.toUpperCase()`. -/
def jsToUpperCase (s : String) : String :=
  ⟨s.data.map asciiUpperChar⟩

-- ## The four record types (the TS `type` declarations)

structure PartnerMaster where
  Partner_ID : String := ""
  Partner_Name : String := ""
  Bank_Code : String := ""
  Category : String := ""
  Status : String := ""
deriving DecidableEq

structure CardUIConfig where
  Config_ID : String := ""
  Partner_ID : String := ""
  Card_Title : String := ""
  Card_Subtitle : String := ""
  Logo_URL : String := ""
  Badge_Text : String := ""
  Bg_Color : String := ""
  Text_Color : String := ""
  Benefit_1 : String := ""
  Benefit_2 : String := ""
  Benefit_3 : String := ""
  CTA_Label_Card : String := ""
deriving DecidableEq

structure ProductDetailConfig where
  Config_ID : String := ""
  Hero_Banner_URL : String := ""
  TnC_Content : String := ""
  Step_1_Desc : String := ""
  Step_2_Desc : String := ""
  CTA_Action_Type : String := ""
  Final_Target_URL : String := ""
deriving DecidableEq

structure DisplayRules where
  Rule_ID : String := ""
  Config_ID : String := ""
  User_Segment : String := ""
  Min_Age : String := ""
  Location : String := ""
  Priority : String := ""
deriving DecidableEq

structure ParsedData where
  partnerMaster : List PartnerMaster := []
  cardUIConfig : List CardUIConfig := []
  productDetailConfig : List ProductDetailConfig := []
  displayRules : List DisplayRules := []
deriving DecidableEq

-- ## Resolution engine: `dashboardRows` (administrativeView)

/-- `data.partnerMaster.find(p => p.Partner_ID === pid)`. -/
def firstPartnerFor (data : ParsedData) (pid : String) : Option PartnerMaster :=
  data.partnerMaster.find? (fun p => p.Partner_ID == pid)

/-- `data.displayRules.find(r => r.Config_ID === cfgId)`. -/
def firstRuleFor (data : ParsedData) (cfgId : String) : Option DisplayRules :=
  data.displayRules.find? (fun r => r.Config_ID == cfgId)

/-- Shape of one `dashboardRows` element: the spread of the card config plus
the four joined/overridden fields. -/
structure DashRow where
  Config_ID : String := ""
  Partner_ID : String := ""
  Card_Title : String := ""
  Card_Subtitle : String := ""
  Logo_URL : String := ""
  Badge_Text : String := ""
  Bg_Color : String := ""
  Text_Color : String := ""
  Benefit_1 : String := ""
  Benefit_2 : String := ""
  Benefit_3 : String := ""
  CTA_Label_Card : String := ""
  Partner_Name : String := ""
  Status : String := ""
  Priority : String := ""
  User_Segment : String := ""
deriving DecidableEq

/-- The body of the `dashboardRows` map: `{...config, Partner_Name: partner?.Partner_Name || 'Unknown', Status: partner?.Status || 'INACTIVE', Priority: rule?.Priority || '0', User_Segment: rule?.User_Segment || 'All'}`. -/
def dashRowFor (data : ParsedData) (config : CardUIConfig) : DashRow :=
  let partner := firstPartnerFor data config.Partner_ID
  let rule := firstRuleFor data config.Config_ID
  { Config_ID := config.Config_ID
    Partner_ID := config.Partner_ID
    Card_Title := config.Card_Title
    Card_Subtitle := config.Card_Subtitle
    Logo_URL := config.Logo_URL
    Badge_Text := config.Badge_Text
    Bg_Color := config.Bg_Color
    Text_Color := config.Text_Color
    Benefit_1 := config.Benefit_1
    Benefit_2 := config.Benefit_2
    Benefit_3 := config.Benefit_3
    CTA_Label_Card := config.CTA_Label_Card
    Partner_Name := jsOr ((partner.map PartnerMaster.Partner_Name).getD "") "Unknown"
    Status := jsOr ((partner.map PartnerMaster.Status).getD "") "INACTIVE"
    Priority := jsOr ((rule.map DisplayRules.Priority).getD "") "0"
    User_Segment := jsOr ((rule.map DisplayRules.User_Segment).getD "") "All" }

/-- `dashboardRows`: one output row per card config, in original order. -/
def administrativeView (data : ParsedData) : List DashRow :=
  data.cardUIConfig.map (dashRowFor data)

-- ## Resolution engine: `mobileCards` (eligibleCards)

/-- Partner_IDs of partners with `p.Status.toUpperCase() === 'ACTIVE'`.
(The JS code collects them into a `Set`; only membership is ever used, so a
list with `contains` is an equivalent model.) -/
def activePartnerIds (data : ParsedData) : List String :=
  (data.partnerMaster.filter (fun p => jsToUpperCase p.Status == "ACTIVE")).map
    PartnerMaster.Partner_ID

/-- Step 1 of `mobileCards`: keep cards whose partner id is in the active
set. -/
def statusFiltered (data : ParsedData) : List CardUIConfig :=
  data.cardUIConfig.filter (fun c => (activePartnerIds data).contains c.Partner_ID)

/-- `data.displayRules.filter(r => r.Config_ID === cfgId)`. -/
def rulesFor (data : ParsedData) (cfgId : String) : List DisplayRules :=
  data.displayRules.filter (fun r => r.Config_ID == cfgId)

/-- The segment-gate predicate of step 2 of `mobileCards`. -/
def segmentPasses (data : ParsedData) (seg : String) (c : CardUIConfig) : Bool :=
  let rules := rulesFor data c.Config_ID
  rules.isEmpty || rules.any (fun r => r.User_Segment == "All" || r.User_Segment == seg)

/-- Step 2 of `mobileCards`: the segment gate applied to the status-filtered
cards. -/
def segmentFiltered (data : ParsedData) (seg : String) : List CardUIConfig :=
  (statusFiltered data).filter (segmentPasses data seg)

/-- Priority of a card as used by the sort comparator:
`parseInt(rule?.Priority || '0', 10)` for the first rule matching the card's
`Config_ID`; `none` models `NaN`. -/
def cardPriority (data : ParsedData) (c : CardUIConfig) : Option Int :=
  jsParseInt (jsOr (((firstRuleFor data c.Config_ID).map DisplayRules.Priority).getD "") "0")

/-- Comparator value `prioB - prioA` with the ECMAScript `SortCompare`
coercion of `NaN` to `+0` applied. -/
def jsCmp (pa pb : Option Int) : Int :=
  match pa, pb with
  | some x, some y => y - x
  | _, _ => 0

/-- "`a` may stay before `b`" under the `mobileCards` comparator: the
comparator result is `≤ 0`.  A stable sort with respect to this relation is
the ES2019 behavior of `Array.prototype.sort`. -/
def cardLe (data : ParsedData) (a b : CardUIConfig) : Prop :=
  jsCmp (cardPriority data a) (cardPriority data b) ≤ 0

instance (data : ParsedData) : DecidableRel (cardLe data) := fun a b =>
  inferInstanceAs (Decidable (jsCmp (cardPriority data a) (cardPriority data b) ≤ 0))

/-- `mobileCards`: status gate, then segment gate, then the stable
descending-priority sort. -/
def eligibleCards (data : ParsedData) (seg : String) : List CardUIConfig :=
  List.insertionSort (cardLe data) (segmentFiltered data seg)

-- ## Table-recovery parser (the row loop of `fetchData`)

/-- The four table contexts of the parser. -/
inductive TableTag where
  | partnerTbl
  | cardTbl
  | detailTbl
  | ruleTbl
deriving DecidableEq

/-- `row.length === 0 || row.every(cell => !cell || !cell.trim())`. -/
def isBlankRow (row : List String) : Bool :=
  row.all (fun cell => jsTrim cell == "")

/-- The header-detection cascade: first cell trimmed against the key-column
name, signature column searched by exact (untrimmed) cell equality
(`row.includes(...)`), in the fixed source order. -/
def headerOf (row : List String) : Option TableTag :=
  let firstCell := jsTrim (row.headD "")
  if firstCell == "Partner_ID" && row.contains "Partner_Name" then
    some TableTag.partnerTbl
  else if firstCell == "Config_ID" && row.contains "Card_Title" then
    some TableTag.cardTbl
  else if firstCell == "Config_ID" && row.contains "Hero_Banner_URL" then
    some TableTag.detailTbl
  else if firstCell == "Rule_ID" && row.contains "User_Segment" then
    some TableTag.ruleTbl
  else none

/-- The record builder `currentHeaders.forEach((header, index) => { if (header) obj[header] = row[index] ? row[index].trim() : ''; })`, walking the headers with the row cells positionally.  A record is the ordered list of field assignments (the claims never exercise duplicate header names, where a JS object would keep the first position with the last value). -/
def buildRecord : List String → List String → List (String × String)
  | [], _ => []
  | h :: hs, row =>
    let rest := buildRecord hs row.tail
    if h = "" then rest else (h, jsTrim (row.headD "")) :: rest

/-- The mutable loop state plus the four accumulated record lists. -/
structure ParseState where
  currentTable : Option TableTag := none
  currentHeaders : List String := []
  partnerRecs : List (List (String × String)) := []
  cardRecs : List (List (String × String)) := []
  detailRecs : List (List (String × String)) := []
  ruleRecs : List (List (String × String)) := []
deriving DecidableEq

/-- The record list a state holds for a given table. -/
def recsOf (s : ParseState) : TableTag → List (List (String × String))
  | TableTag.partnerTbl => s.partnerRecs
  | TableTag.cardTbl => s.cardRecs
  | TableTag.detailTbl => s.detailRecs
  | TableTag.ruleTbl => s.ruleRecs

/-- The `switch (currentTable) { ... push(obj) }` at the end of the loop. -/
def pushRecord (s : ParseState) (t : TableTag) (rcd : List (String × String)) :
    ParseState :=
  match t with
  | TableTag.partnerTbl => { s with partnerRecs := s.partnerRecs ++ [rcd] }
  | TableTag.cardTbl => { s with cardRecs := s.cardRecs ++ [rcd] }
  | TableTag.detailTbl => { s with detailRecs := s.detailRecs ++ [rcd] }
  | TableTag.ruleTbl => { s with ruleRecs := s.ruleRecs ++ [rcd] }

/-- One iteration of the row loop: blank-row reset, else header detection,
else data-row emission (dropped when no table is current). -/
def parseStep (s : ParseState) (row : List String) : ParseState :=
  if isBlankRow row then { s with currentTable := none }
  else
    match headerOf row with
    | some t => { s with currentTable := some t, currentHeaders := row.map jsTrim }
    | none =>
      match s.currentTable with
      | some t => pushRecord s t (buildRecord s.currentHeaders row)
      | none => s

/-- The whole loop: a left fold of `parseStep` over the grid from the empty
initial state. -/
def parseGrid (rows : List (List String)) : ParseState :=
  rows.foldl parseStep {}

-- ## Derived notions and example snapshots

/-- Priority an individual rule contributes when it is the first match:
`parseInt(r.Priority || '0', 10)`. -/
def rulePriorityVal (r : DisplayRules) : Option Int :=
  jsParseInt (jsOr r.Priority "0")

/-- The integer priority the specification ascribes to a card: the parsed
priority of the first matching rule, with `0` for the absent, empty and
unparseable cases alike. -/
def specPriority (data : ParsedData) (c : CardUIConfig) : Int :=
  (cardPriority data c).getD 0

/-- An active partner `P1`. -/
def pAcme : PartnerMaster :=
  { Partner_ID := "P1", Partner_Name := "Acme Bank", Status := "Active" }

def cardA : CardUIConfig := { Config_ID := "A", Partner_ID := "P1" }

def cardB : CardUIConfig := { Config_ID := "B", Partner_ID := "P1" }

def cardC : CardUIConfig := { Config_ID := "C", Partner_ID := "P1" }

/-- A rule whose `Priority` cell is non-empty but has no parsable digit
prefix. -/
def ruleAbc : DisplayRules :=
  { Rule_ID := "R1", Config_ID := "A", User_Segment := "All", Priority := "abc" }

/-- Snapshot with priorities `"abc"`, `"5"`, `"10"` for cards `A`, `B`, `C`:
the unparseable-priority counterexample. -/
def exNaN : ParsedData :=
  { partnerMaster := [pAcme]
    cardUIConfig := [cardA, cardB, cardC]
    displayRules :=
      [ ruleAbc,
        { Rule_ID := "R2", Config_ID := "B", User_Segment := "All", Priority := "5" },
        { Rule_ID := "R3", Config_ID := "C", User_Segment := "All", Priority := "10" } ] }

/-- Snapshot with priorities `5`, `5`, `10` for cards `A`, `B`, `C` in that
original order: the documented stable-ordering example. -/
def exStable : ParsedData :=
  { partnerMaster := [pAcme]
    cardUIConfig := [cardA, cardB, cardC]
    displayRules :=
      [ { Rule_ID := "R1", Config_ID := "A", User_Segment := "All", Priority := "5" },
        { Rule_ID := "R2", Config_ID := "B", User_Segment := "All", Priority := "5" },
        { Rule_ID := "R3", Config_ID := "C", User_Segment := "All", Priority := "10" } ] }

def cSeg : CardUIConfig := { Config_ID := "C1", Partner_ID := "P1" }

/-- Snapshot with a single `"New User"` rule for card `C1`. -/
def exSeg : ParsedData :=
  { partnerMaster := [pAcme]
    cardUIConfig := [cSeg]
    displayRules := [ { Rule_ID := "R1", Config_ID := "C1", User_Segment := "New User" } ] }

/-- Snapshot whose partners are inactive in three spellings, plus one card
with a dangling partner id. -/
def exInactive : ParsedData :=
  { partnerMaster :=
      [ { Partner_ID := "P1", Status := "inactive" },
        { Partner_ID := "P2", Status := "Inactive" },
        { Partner_ID := "P3", Status := "INACTIVE" } ]
    cardUIConfig :=
      [ { Config_ID := "K1", Partner_ID := "P1" },
        { Config_ID := "K2", Partner_ID := "P2" },
        { Config_ID := "K3", Partner_ID := "P3" },
        { Config_ID := "K4", Partner_ID := "P9" } ] }

/-- Snapshot with one active partner and one ruleless card. -/
def exActiveCard : ParsedData :=
  { partnerMaster := [pAcme], cardUIConfig := [cSeg] }

/-- Snapshot whose matched partner has empty name and status, and whose
matched rule has empty priority and segment. -/
def exEmptyFields : ParsedData :=
  { partnerMaster := [ { Partner_ID := "P1", Partner_Name := "", Status := "" } ]
    cardUIConfig := [cSeg]
    displayRules :=
      [ { Rule_ID := "R1", Config_ID := "C1", User_Segment := "", Priority := "" } ] }

-- ## General helper lemmas

/-- A string is trimmed when neither end carries a whitespace character. -/
def isTrimmedStr (s : String) : Bool :=
  (match s.data.head? with | some c => !isJsWhitespace c | none => true) &&
  (match s.data.getLast? with | some c => !isJsWhitespace c | none => true)

theorem dropWhile_head?_not {α : Type} {p : α → Bool} :
    ∀ {l : List α} {c : α}, (l.dropWhile p).head? = some c → p c = false := by
  intro l
  induction l with
  | nil => intro c h; simp [List.dropWhile] at h
  | cons a t ih =>
    intro c h
    rw [List.dropWhile_cons] at h
    by_cases hp : p a
    · exact ih (by simpa [hp] using h)
    · simp [hp] at h
      subst h
      simpa using hp

theorem rdropWhile_head?_eq {α : Type} {p : α → Bool} {l : List α} {c : α}
    (h : (List.rdropWhile p l).head? = some c) : l.head? = some c := by
  obtain ⟨t, ht⟩ := List.rdropWhile_prefix p l
  cases hY : List.rdropWhile p l with
  | nil => rw [hY] at h; simp at h
  | cons x ys =>
    rw [hY] at h ht
    simp at h
    rw [← ht, List.cons_append]
    simp [h]

theorem rdropWhile_getLast?_not {α : Type} {p : α → Bool} {l : List α} {c : α}
    (h : (List.rdropWhile p l).getLast? = some c) : p c = false := by
  rw [List.rdropWhile, List.getLast?_reverse] at h
  exact dropWhile_head?_not h

/-- `jsTrim` always produces a string with clean ends. -/
theorem isTrimmedStr_jsTrim (s : String) : isTrimmedStr (jsTrim s) = true := by
  have hdata : (jsTrim s).data =
      List.rdropWhile isJsWhitespace (s.data.dropWhile isJsWhitespace) := rfl
  unfold isTrimmedStr
  rw [hdata, Bool.and_eq_true]
  constructor
  · cases h1 : (List.rdropWhile isJsWhitespace (s.data.dropWhile isJsWhitespace)).head? with
    | none => rfl
    | some c =>
      have h2 := rdropWhile_head?_eq h1
      have h3 := dropWhile_head?_not h2
      simp [h3]
  · cases h1 : (List.rdropWhile isJsWhitespace (s.data.dropWhile isJsWhitespace)).getLast? with
    | none => rfl
    | some c =>
      have h2 := rdropWhile_getLast?_not h1
      simp [h2]

/-- First-match lookup is the head of the filtered list: the "first element of
the filtered sequence in original insertion order" reading of `find`. -/
theorem find?_eq_head?_filter {α : Type} (p : α → Bool) :
    ∀ l : List α, l.find? p = (l.filter p).head? := by
  intro l
  induction l with
  | nil => rfl
  | cons a t ih =>
    by_cases hp : p a
    · rw [List.find?_cons_of_pos t hp, List.filter_cons_of_pos hp]
      rfl
    · rw [List.find?_cons_of_neg t hp, List.filter_cons_of_neg hp, ih]

-- ## Parser step lemmas

theorem jsTrim_empty : jsTrim "" = "" := rfl

/-- A row recognized as a header is never blank: its first cell trims to a
nonempty key-column name. -/
theorem headerOf_isBlankRow_false {row : List String} {t : TableTag}
    (h : headerOf row = some t) : isBlankRow row = false := by
  by_contra hb
  have hb' : isBlankRow row = true := by
    cases hq : isBlankRow row
    · exact absurd hq hb
    · rfl
  have hfirst : jsTrim (row.headD "") = "" := by
    cases row with
    | nil => exact jsTrim_empty
    | cons a t' =>
      have ha : (jsTrim a == "") = true := by
        rw [isBlankRow, List.all_cons, Bool.and_eq_true] at hb'
        exact hb'.1
      simpa using ha
  rw [headerOf] at h
  simp only [hfirst] at h
  simp at h

/-- A blank row resets the current-table context and touches nothing else. -/
theorem parseStep_blank (s : ParseState) (row : List String)
    (h : isBlankRow row = true) :
    parseStep s row = { s with currentTable := none } := by
  rw [parseStep, if_pos h]

/-- A header row switches the context and records the trimmed header names,
without emitting a record. -/
theorem parseStep_header (s : ParseState) (row : List String) (t : TableTag)
    (h : headerOf row = some t) :
    parseStep s row =
      { s with currentTable := some t, currentHeaders := row.map jsTrim } := by
  rw [parseStep, if_neg (by simp [headerOf_isBlankRow_false h]), h]

/-- A non-blank non-header row seen with no current table is dropped: the
state is returned unchanged. -/
theorem parseStep_orphan (s : ParseState) (row : List String)
    (h1 : s.currentTable = none) (h2 : isBlankRow row = false)
    (h3 : headerOf row = none) : parseStep s row = s := by
  rw [parseStep, if_neg (by simp [h2]), h3, h1]

theorem recsOf_pushRecord_ne (s : ParseState) (u t : TableTag)
    (rcd : List (String × String)) (h : u ≠ t) :
    recsOf (pushRecord s u rcd) t = recsOf s t := by
  cases u <;> cases t <;> simp_all [pushRecord, recsOf]

theorem recsOf_pushRecord_eq (s : ParseState) (t : TableTag)
    (rcd : List (String × String)) :
    recsOf (pushRecord s t rcd) t = recsOf s t ++ [rcd] := by
  cases t <;> rfl

/-- While no table is current, no row (blank, header, or data) adds a record
to any table. -/
theorem recsOf_parseStep_none (s : ParseState) (row : List String)
    (h : s.currentTable = none) (t : TableTag) :
    recsOf (parseStep s row) t = recsOf s t := by
  rw [parseStep]
  by_cases hb : isBlankRow row = true
  · rw [if_pos hb]; cases t <;> rfl
  · rw [if_neg hb]
    cases hh : headerOf row with
    | some u => cases t <;> rfl
    | none => rw [h]

/-- One-step preservation: a row that is not a header for `t`, processed in a
state not currently in `t`, neither adds a `t` record nor enters `t`. -/
theorem parseStep_preserves (s : ParseState) (row : List String) (t : TableTag)
    (hrow : headerOf row ≠ some t) (hcur : s.currentTable ≠ some t) :
    recsOf (parseStep s row) t = recsOf s t ∧
    (parseStep s row).currentTable ≠ some t := by
  rw [parseStep]
  by_cases hb : isBlankRow row = true
  · rw [if_pos hb]
    exact ⟨by cases t <;> rfl, by simp⟩
  · rw [if_neg hb]
    cases hh : headerOf row with
    | some u =>
      have hu : u ≠ t := fun he => hrow (he ▸ hh)
      exact ⟨by cases t <;> rfl, by simpa using hu⟩
    | none =>
      cases hc : s.currentTable with
      | some u =>
        have hu : u ≠ t := fun he => hcur (he ▸ hc)
        refine ⟨recsOf_pushRecord_ne s u t _ hu, ?_⟩
        have : (pushRecord s u (buildRecord s.currentHeaders row)).currentTable
            = s.currentTable := by cases u <;> rfl
        rw [this, hc]
        simpa using hu
      | none => exact ⟨rfl, by rw [hc]; simp⟩

/-- Fold preservation: scanning any run of rows containing no header for `t`,
starting outside `t`, leaves `t`'s records untouched and ends outside `t`. -/
theorem recsOf_foldl_no_header (t : TableTag) :
    ∀ (rows : List (List String)) (s : ParseState),
      (∀ r ∈ rows, headerOf r ≠ some t) → s.currentTable ≠ some t →
      recsOf (List.foldl parseStep s rows) t = recsOf s t ∧
      (List.foldl parseStep s rows).currentTable ≠ some t := by
  intro rows
  induction rows with
  | nil => intro s _ hcur; exact ⟨rfl, hcur⟩
  | cons row rest ih =>
    intro s hrows hcur
    have hstep := parseStep_preserves s row t
      (hrows row (List.mem_cons_self row rest)) hcur
    have hrest : ∀ r ∈ rest, headerOf r ≠ some t := fun r hr =>
      hrows r (List.mem_cons_of_mem row hr)
    have := ih (parseStep s row) hrest hstep.2
    rw [List.foldl_cons]
    exact ⟨this.1.trans hstep.1, this.2⟩

-- ## Record-builder lemmas

/-- Padding a data row with empty cells never changes the built record: a
missing trailing cell and an empty cell are indistinguishable. -/
theorem buildRecord_pad :
    ∀ (headers row : List String) (k : Nat),
      buildRecord headers (row ++ List.replicate k "") = buildRecord headers row := by
  intro headers
  induction headers with
  | nil => intro row k; rfl
  | cons h hs ih =>
    intro row k
    cases row with
    | nil =>
      cases k with
      | zero => rfl
      | succ k =>
        have hrest : buildRecord hs (List.replicate k "") = buildRecord hs [] := by
          simpa using ih [] k
        simp only [List.nil_append, List.replicate_succ, buildRecord, List.tail_cons,
          List.tail_nil, List.headD_cons, List.headD_nil]
        rw [hrest]
    | cons a as =>
      simp only [List.cons_append, buildRecord, List.tail_cons, List.headD_cons]
      rw [ih as k]

/-- Cells beyond the header's length are ignored. -/
theorem buildRecord_extra :
    ∀ (headers row extra : List String), headers.length ≤ row.length →
      buildRecord headers (row ++ extra) = buildRecord headers row := by
  intro headers
  induction headers with
  | nil => intro row extra _; rfl
  | cons h hs ih =>
    intro row extra hlen
    cases row with
    | nil => simp at hlen
    | cons a as =>
      simp only [List.length_cons, Nat.succ_le_succ_iff] at hlen
      simp only [List.cons_append, buildRecord, List.tail_cons, List.headD_cons]
      rw [ih as extra hlen]

/-- The field names of a built record are exactly the non-empty header
names, in header order: an empty header contributes no field. -/
theorem buildRecord_keys :
    ∀ (headers row : List String),
      (buildRecord headers row).map Prod.fst = headers.filter (fun h => h != "") := by
  intro headers
  induction headers with
  | nil => intro row; rfl
  | cons h hs ih =>
    intro row
    by_cases hc : h = ""
    · simp [buildRecord, hc, ih]
    · simp [buildRecord, hc, ih]

/-- Every value stored in a built record is trimmed. -/
theorem buildRecord_trimmed :
    ∀ (headers row : List String) (pr : String × String),
      pr ∈ buildRecord headers row → isTrimmedStr pr.2 = true := by
  intro headers
  induction headers with
  | nil => intro row pr hpr; simp [buildRecord] at hpr
  | cons h hs ih =>
    intro row pr hpr
    rw [buildRecord] at hpr
    by_cases hc : h = ""
    · rw [if_pos hc] at hpr
      exact ih _ pr hpr
    · rw [if_neg hc] at hpr
      rcases List.mem_cons.mp hpr with rfl | hmem
      · exact isTrimmedStr_jsTrim _
      · exact ih _ pr hmem

/-- A data row with no cells yields the empty string for every field. -/
theorem buildRecord_nil_values :
    ∀ (headers : List String) (pr : String × String),
      pr ∈ buildRecord headers [] → pr.2 = "" := by
  intro headers
  induction headers with
  | nil => intro pr hpr; simp [buildRecord] at hpr
  | cons h hs ih =>
    intro pr hpr
    rw [buildRecord] at hpr
    by_cases hc : h = ""
    · rw [if_pos hc] at hpr
      exact ih pr hpr
    · rw [if_neg hc] at hpr
      rcases List.mem_cons.mp hpr with rfl | hmem
      · rfl
      · exact ih pr hmem

-- ## Sort lemmas for the eligibleCards comparator

/-- On cards whose priority parses (no `NaN`), the comparator relation is
exactly "descending by integer priority". -/
theorem cardLe_iff_of_isSome {data : ParsedData} {a b : CardUIConfig}
    (ha : (cardPriority data a).isSome = true)
    (hb : (cardPriority data b).isSome = true) :
    cardLe data a b ↔ specPriority data b ≤ specPriority data a := by
  obtain ⟨x, hx⟩ := Option.isSome_iff_exists.mp ha
  obtain ⟨y, hy⟩ := Option.isSome_iff_exists.mp hb
  unfold cardLe jsCmp specPriority
  rw [hx, hy]
  simp only [Option.getD_some]
  omega

theorem not_cardLe_lt {data : ParsedData} {a b : CardUIConfig}
    (ha : (cardPriority data a).isSome = true)
    (hb : (cardPriority data b).isSome = true)
    (h : ¬ cardLe data a b) : specPriority data a < specPriority data b := by
  by_contra hlt
  push_neg at hlt
  exact h ((cardLe_iff_of_isSome ha hb).mpr hlt)

theorem sorted_orderedInsert_of_isSome (data : ParsedData) (a : CardUIConfig) :
    ∀ M : List CardUIConfig,
      (cardPriority data a).isSome = true →
      (∀ c ∈ M, (cardPriority data c).isSome = true) →
      List.Sorted (fun x y => specPriority data y ≤ specPriority data x) M →
      List.Sorted (fun x y => specPriority data y ≤ specPriority data x)
        (List.orderedInsert (cardLe data) a M) := by
  intro M
  induction M with
  | nil => intro _ _ _; simp [List.orderedInsert]
  | cons b M ih =>
    intro ha hM hsort
    have hb := hM b (List.mem_cons_self b M)
    rw [List.orderedInsert]
    by_cases hle : cardLe data a b
    · rw [if_pos hle]
      have hab : specPriority data b ≤ specPriority data a :=
        (cardLe_iff_of_isSome ha hb).mp hle
      rw [List.sorted_cons]
      refine ⟨?_, hsort⟩
      intro c hc
      rcases List.mem_cons.mp hc with rfl | hcM
      · exact hab
      · exact le_trans (List.rel_of_sorted_cons hsort c hcM) hab
    · rw [if_neg hle]
      have hlt : specPriority data a < specPriority data b := not_cardLe_lt ha hb hle
      rw [List.sorted_cons]
      constructor
      · intro c hc
        rcases (List.mem_orderedInsert (cardLe data)).mp hc with rfl | hcM
        · exact le_of_lt hlt
        · exact List.rel_of_sorted_cons hsort c hcM
      · exact ih ha (fun c hc => hM c (List.mem_cons_of_mem b hc)) hsort.of_cons

/-- When every eligible card's priority parses, the stable JS sort leaves the
list sorted descending by integer priority. -/
theorem sorted_insertionSort_of_isSome (data : ParsedData) :
    ∀ L : List CardUIConfig, (∀ c ∈ L, (cardPriority data c).isSome = true) →
      List.Sorted (fun x y => specPriority data y ≤ specPriority data x)
        (List.insertionSort (cardLe data) L) := by
  intro L
  induction L with
  | nil => intro _; simp [List.insertionSort]
  | cons a L ih =>
    intro hL
    rw [List.insertionSort]
    apply sorted_orderedInsert_of_isSome
    · exact hL a (List.mem_cons_self a L)
    · intro c hc
      have hcL : c ∈ L := (List.perm_insertionSort (cardLe data) L).mem_iff.mp hc
      exact hL c (List.mem_cons_of_mem a hcL)
    · exact ih (fun c hc => hL c (List.mem_cons_of_mem a hc))

/-- Stability at one insertion: restricting to any one priority value, the
inserted element lands in front of its equal-priority class and everything
else is unchanged. -/
theorem filter_orderedInsert_key (data : ParsedData) (pv : Int) (a : CardUIConfig)
    (M : List CardUIConfig)
    (ha : (cardPriority data a).isSome = true)
    (hM : ∀ c ∈ M, (cardPriority data c).isSome = true) :
    (List.orderedInsert (cardLe data) a M).filter (fun c => specPriority data c == pv)
      = (a :: M).filter (fun c => specPriority data c == pv) := by
  rw [List.orderedInsert_eq_take_drop, List.filter_append]
  by_cases hq : (specPriority data a == pv) = true
  · have hpre : (M.takeWhile (fun b => decide ¬ cardLe data a b)).filter
        (fun c => specPriority data c == pv) = [] := by
      rw [List.filter_eq_nil_iff]
      intro b hb
      have hnb' : decide (¬ cardLe data a b) = true :=
        List.mem_takeWhile_imp (p := fun b => decide ¬ cardLe data a b) hb
      have hnb : ¬ cardLe data a b := of_decide_eq_true hnb'
      have hbM : b ∈ M := (List.takeWhile_sublist _).mem hb
      have hlt : specPriority data a < specPriority data b :=
        not_cardLe_lt ha (hM b hbM) hnb
      have hav : specPriority data a = pv := by simpa using hq
      simp only [beq_iff_eq]
      omega
    rw [hpre, List.filter_cons, if_pos hq, List.filter_cons, if_pos hq,
      List.nil_append]
    have : (M.takeWhile (fun b => decide ¬ cardLe data a b)).filter
          (fun c => specPriority data c == pv)
        ++ (M.dropWhile (fun b => decide ¬ cardLe data a b)).filter
          (fun c => specPriority data c == pv)
        = M.filter (fun c => specPriority data c == pv) := by
      rw [← List.filter_append, List.takeWhile_append_dropWhile]
    rw [hpre, List.nil_append] at this
    rw [this]
  · rw [List.filter_cons, if_neg hq, List.filter_cons, if_neg hq,
      ← List.filter_append, List.takeWhile_append_dropWhile]

/-- Stability of the whole sort: the subsequence of cards carrying any fixed
priority value is preserved from input to output. -/
theorem filter_insertionSort_key (data : ParsedData) (pv : Int) :
    ∀ L : List CardUIConfig, (∀ c ∈ L, (cardPriority data c).isSome = true) →
      (List.insertionSort (cardLe data) L).filter (fun c => specPriority data c == pv)
        = L.filter (fun c => specPriority data c == pv) := by
  intro L
  induction L with
  | nil => intro _; rfl
  | cons a L ih =>
    intro hL
    rw [List.insertionSort]
    rw [filter_orderedInsert_key data pv a (List.insertionSort (cardLe data) L)
      (hL a (List.mem_cons_self a L))
      (fun c hc => hL c (List.mem_cons_of_mem a
        ((List.perm_insertionSort (cardLe data) L).mem_iff.mp hc)))]
    rw [List.filter_cons, List.filter_cons, ih (fun c hc => hL c (List.mem_cons_of_mem a hc))]

-- ## parseInt lemmas

theorem isDigit_not_ws {c : Char} (h : c.isDigit = true) : isJsWhitespace c = false := by
  cases hb : isJsWhitespace c
  · rfl
  · exfalso
    have hb' : c = ' ' ∨ c = '\t' ∨ c = '\n' ∨ c = '\r' ∨ c = '\x0b' ∨ c = '\x0c' := by
      rw [isJsWhitespace] at hb
      simp only [Bool.or_eq_true, beq_iff_eq] at hb
      tauto
    rcases hb' with h1 | h1 | h1 | h1 | h1 | h1 <;> subst h1 <;> exact absurd h (by decide)

/-- `parseInt` on an all-digit string returns its decimal value. -/
theorem jsParseInt_digits {s : String} {c : Char} {cs : List Char}
    (h : s.data = c :: cs) (hd : ∀ ch ∈ s.data, ch.isDigit = true) :
    jsParseInt s = some (digitsVal s.data) := by
  have hc : c.isDigit = true := hd c (h ▸ List.mem_cons_self c cs)
  have hcw : isJsWhitespace c = false := isDigit_not_ws hc
  have hcm : ¬ c = '-' := by intro he; subst he; exact absurd hc (by decide)
  have hcp : ¬ c = '+' := by intro he; subst he; exact absurd hc (by decide)
  rw [h] at hd
  have hdrop : s.data.dropWhile isJsWhitespace = c :: cs := by
    rw [h, List.dropWhile_cons, if_neg (by simp [hcw])]
  simp only [jsParseInt]
  rw [hdrop, List.headD_cons, if_neg hcm, if_neg (not_or.mpr ⟨hcm, hcp⟩),
    List.takeWhile_eq_self_iff.mpr hd, h]
  simp

/-- `parseInt` on a string whose first character is not a digit, whitespace
or sign returns `NaN`. -/
theorem jsParseInt_none_of_no_digit {s : String} {c : Char} {cs : List Char}
    (h : s.data = c :: cs) (hcd : c.isDigit = false) (hcw : isJsWhitespace c = false)
    (hcm : ¬ c = '-') (hcp : ¬ c = '+') : jsParseInt s = none := by
  have hdrop : s.data.dropWhile isJsWhitespace = c :: cs := by
    rw [h, List.dropWhile_cons, if_neg (by simp [hcw])]
  have htake : List.takeWhile Char.isDigit (c :: cs) = [] := by
    rw [List.takeWhile_cons, if_neg (by rw [hcd]; decide)]
  simp only [jsParseInt]
  rw [hdrop, List.headD_cons, if_neg (not_or.mpr ⟨hcm, hcp⟩), htake]
  rfl

-- ## Claim theorems

/-- Claim C6: a row whose first cell trims to `Config_ID` and that contains a
`Card_Title` cell always switches the parser to the CardPresentation table
(never ProductDetail); with a `Hero_Banner_URL` cell and no `Card_Title` cell
it switches to ProductDetail.  Because the `Card_Title` check precedes the
`Hero_Banner_URL` check, a header row carrying both signature names routes
deterministically to CardPresentation — on every grid, including grids with
both header kinds back-to-back. -/
theorem header_disambiguation :
    (∀ row : List String, jsTrim (row.headD "") = "Config_ID" →
       row.contains "Card_Title" = true → headerOf row = some TableTag.cardTbl)
  ∧ (∀ row : List String, jsTrim (row.headD "") = "Config_ID" →
       row.contains "Card_Title" = false → row.contains "Hero_Banner_URL" = true →
       headerOf row = some TableTag.detailTbl)
  ∧ (∀ (s : ParseState) (row : List String) (t : TableTag), headerOf row = some t →
       parseStep s row = { s with currentTable := some t, currentHeaders := row.map jsTrim })
  ∧ headerOf ["Config_ID", "Card_Title", "Hero_Banner_URL"] = some TableTag.cardTbl
  ∧ recsOf (parseGrid [["Config_ID", "Card_Title"], ["C1", "T1"],
      ["Config_ID", "Hero_Banner_URL"], ["C1", "U1"]]) TableTag.cardTbl
      = [[("Config_ID", "C1"), ("Card_Title", "T1")]]
  ∧ recsOf (parseGrid [["Config_ID", "Card_Title"], ["C1", "T1"],
      ["Config_ID", "Hero_Banner_URL"], ["C1", "U1"]]) TableTag.detailTbl
      = [[("Config_ID", "C1"), ("Hero_Banner_URL", "U1")]] := by
  refine ⟨?_, ?_, parseStep_header, by decide, by decide, by decide⟩
  · intro row h1 h2
    have c1 : (jsTrim (row.headD "") == "Partner_ID" && row.contains "Partner_Name")
        = false := by rw [h1]; rfl
    have c2 : (jsTrim (row.headD "") == "Config_ID" && row.contains "Card_Title")
        = true := by rw [h1, h2]; rfl
    simp only [headerOf, c1, c2]
    rfl
  · intro row h1 h2 h3
    have c1 : (jsTrim (row.headD "") == "Partner_ID" && row.contains "Partner_Name")
        = false := by rw [h1]; rfl
    have c2 : (jsTrim (row.headD "") == "Config_ID" && row.contains "Card_Title")
        = false := by rw [h1, h2]; rfl
    have c3 : (jsTrim (row.headD "") == "Config_ID" && row.contains "Hero_Banner_URL")
        = true := by rw [h1, h3]; rfl
    simp only [headerOf, c1, c2, c3]
    rfl

/-- Witness for `header_disambiguation` at concrete header rows. -/
theorem header_disambiguation_witness :
    headerOf ["Config_ID", "Card_Title", "Hero_Banner_URL", "x"] = some TableTag.cardTbl
  ∧ headerOf ["Config_ID", "TnC_Content", "Hero_Banner_URL"] = some TableTag.detailTbl :=
  ⟨header_disambiguation.1 ["Config_ID", "Card_Title", "Hero_Banner_URL", "x"]
      (by decide) (by decide),
   header_disambiguation.2.1 ["Config_ID", "TnC_Content", "Hero_Banner_URL"]
      (by decide) (by decide) (by decide)⟩

/-- Claim C7: a blank row (every cell empty or whitespace-only) resets the
current table to none; while the current table is none, no row contributes a
record to any table; consequently, in a grid whose only header for table `T`
is immediately followed by a blank row, zero records are attributed to `T`. -/
theorem parser_boundary_and_orphans :
    (∀ (s : ParseState) (row : List String), isBlankRow row = true →
       parseStep s row = { s with currentTable := none })
  ∧ (∀ (s : ParseState) (row : List String) (t : TableTag), s.currentTable = none →
       recsOf (parseStep s row) t = recsOf s t)
  ∧ (∀ (pre post : List (List String)) (hrow brow : List String) (t : TableTag),
       headerOf hrow = some t → isBlankRow brow = true →
       (∀ r ∈ pre, headerOf r ≠ some t) → (∀ r ∈ post, headerOf r ≠ some t) →
       recsOf (parseGrid (pre ++ hrow :: brow :: post)) t = []) := by
  refine ⟨parseStep_blank, fun s row t h => recsOf_parseStep_none s row h t, ?_⟩
  intro pre post hrow brow t hh hb hpre hpost
  rw [parseGrid, List.foldl_append, List.foldl_cons, List.foldl_cons]
  have hpre' := recsOf_foldl_no_header t pre {}
    hpre (fun hcontra => Option.noConfusion hcontra)
  set s1 := List.foldl parseStep {} pre with hs1
  have h2 : parseStep s1 hrow
      = { s1 with currentTable := some t, currentHeaders := hrow.map jsTrim } :=
    parseStep_header s1 hrow t hh
  set s2 := parseStep s1 hrow with hs2
  have h3 : parseStep s2 brow = { s2 with currentTable := none } :=
    parseStep_blank s2 brow hb
  set s3 := parseStep s2 brow with hs3
  have hpost' := recsOf_foldl_no_header t post s3
    hpost (by rw [h3]; simp)
  rw [hpost'.1]
  have e3 : recsOf s3 t = recsOf s2 t := by rw [h3]; cases t <;> rfl
  have e2 : recsOf s2 t = recsOf s1 t := by rw [h2]; cases t <;> rfl
  rw [e3, e2, hpre'.1]
  cases t <;> rfl

/-- Witness for `parser_boundary_and_orphans` on a concrete grid whose
CardPresentation header is immediately followed by a blank row. -/
theorem parser_boundary_witness :
    recsOf (parseGrid ([["Partner_ID", "Partner_Name"], ["P1", "Acme"]]
      ++ ["Config_ID", "Card_Title"] :: [""] :: [["C1", "T1"]])) TableTag.cardTbl = [] :=
  parser_boundary_and_orphans.2.2 [["Partner_ID", "Partner_Name"], ["P1", "Acme"]]
    [["C1", "T1"]] ["Config_ID", "Card_Title"] [""] TableTag.cardTbl
    (by decide) (by decide) (by decide) (by decide)

/-- Claim C8: a record is built by positionally zipping the current header
names with the row's cells — padding a short row with empty cells changes
nothing (missing trailing fields are empty strings), cells beyond the
header's length are ignored, an empty header name contributes no field, and
every kept value is trimmed. -/
theorem record_zip_spec :
    (∀ (headers row : List String) (k : Nat),
       buildRecord headers (row ++ List.replicate k "") = buildRecord headers row)
  ∧ (∀ headers : List String, ∀ pr ∈ buildRecord headers [], pr.2 = "")
  ∧ (∀ headers row extra : List String, headers.length ≤ row.length →
       buildRecord headers (row ++ extra) = buildRecord headers row)
  ∧ (∀ headers row : List String,
       (buildRecord headers row).map Prod.fst = headers.filter (fun h => h != ""))
  ∧ (∀ headers row : List String, ∀ pr ∈ buildRecord headers row,
       isTrimmedStr pr.2 = true) :=
  ⟨buildRecord_pad,
   fun headers pr h => buildRecord_nil_values headers pr h,
   buildRecord_extra,
   buildRecord_keys,
   fun headers row pr h => buildRecord_trimmed headers row pr h⟩

/-- Witness for `record_zip_spec` at concrete headers and rows. -/
theorem record_zip_spec_witness :
    buildRecord ["A", "B"] (["x", "y"] ++ ["z"]) = buildRecord ["A", "B"] ["x", "y"]
  ∧ buildRecord ["A", "B"] (["x"] ++ List.replicate 3 "") = buildRecord ["A", "B"] ["x"]
  ∧ isTrimmedStr ("A", jsTrim " x ").2 = true :=
  ⟨record_zip_spec.2.2.1 ["A", "B"] ["x", "y"] ["z"] (by decide),
   record_zip_spec.1 ["A", "B"] ["x"] 3,
   record_zip_spec.2.2.2.2 ["A"] [" x "] ("A", jsTrim " x ") (by decide)⟩

/-- Claim C10: header detection is whitespace-asymmetric — the key-column
test trims the row's first cell while the signature test demands exact cell
equality.  A row whose first cell trims to `Config_ID` but which has no
untrimmed `Card_Title` or `Hero_Banner_URL` cell is not a header row for any
table; conversely, whitespace around the first cell is forgiven. -/
theorem header_whitespace_asymmetry :
    (∀ row : List String, jsTrim (row.headD "") = "Config_ID" →
       row.contains "Card_Title" = false → row.contains "Hero_Banner_URL" = false →
       headerOf row = none)
  ∧ headerOf ["Config_ID", " Card_Title "] = none
  ∧ headerOf [" Config_ID ", "Card_Title"] = some TableTag.cardTbl := by
  refine ⟨?_, by decide, by decide⟩
  intro row h1 h2 h3
  have c1 : (jsTrim (row.headD "") == "Partner_ID" && row.contains "Partner_Name")
      = false := by rw [h1]; rfl
  have c2 : (jsTrim (row.headD "") == "Config_ID" && row.contains "Card_Title")
      = false := by rw [h1, h2]; rfl
  have c3 : (jsTrim (row.headD "") == "Config_ID" && row.contains "Hero_Banner_URL")
      = false := by rw [h1, h3]; rfl
  have c4 : (jsTrim (row.headD "") == "Rule_ID" && row.contains "User_Segment")
      = false := by rw [h1]; rfl
  simp only [headerOf, c1, c2, c3, c4]
  rfl

/-- Witness for `header_whitespace_asymmetry` at a concrete row with
whitespace-padded signature cells. -/
theorem header_whitespace_asymmetry_witness :
    headerOf ["Config_ID", " Card_Title ", " Hero_Banner_URL "] = none :=
  header_whitespace_asymmetry.1 ["Config_ID", " Card_Title ", " Hero_Banner_URL "]
    (by decide) (by decide) (by decide)

/-- Claim C3: a status-retained card with zero matching DisplayRules is
eligible unconditionally; with at least one matching rule it is eligible iff
some matching rule's segment is exactly `"All"` or exactly the requested
segment (case-sensitive).  In particular a lone `"New User"` rule admits the
card for `eligibleCards "New User"` but not for `"Existing User"` or
`"All"`. -/
theorem segment_gate :
    (∀ (data : ParsedData) (seg : String) (c : CardUIConfig),
       c ∈ eligibleCards data seg ↔
         c ∈ statusFiltered data ∧
           (rulesFor data c.Config_ID = [] ∨
             ∃ r ∈ rulesFor data c.Config_ID,
               r.User_Segment = "All" ∨ r.User_Segment = seg))
  ∧ cSeg ∈ eligibleCards exSeg "New User"
  ∧ cSeg ∉ eligibleCards exSeg "Existing User"
  ∧ cSeg ∉ eligibleCards exSeg "All" := by
  refine ⟨?_, by decide, by decide, by decide⟩
  intro data seg c
  rw [eligibleCards, (List.perm_insertionSort (cardLe data) _).mem_iff,
    segmentFiltered, List.mem_filter]
  have hpass : segmentPasses data seg c = true ↔
      (rulesFor data c.Config_ID = [] ∨
        ∃ r ∈ rulesFor data c.Config_ID,
          r.User_Segment = "All" ∨ r.User_Segment = seg) := by
    rw [segmentPasses]
    simp [List.isEmpty_iff]
  rw [hpass]

/-- Witness for `segment_gate`: the segment characterization instantiated on
the concrete one-rule snapshot. -/
theorem segment_gate_witness : cSeg ∈ eligibleCards exSeg "New User" :=
  (segment_gate.1 exSeg "New User" cSeg).mpr (by decide)

/-- Claim C4: every card retained by `eligibleCards` has some Partner record
with the same `Partner_ID` whose status is `"active"` case-insensitively;
cards whose partner statuses are `"inactive"`, `"Inactive"`, `"INACTIVE"`,
or whose partner id is dangling, are excluded for every segment. -/
theorem status_gate :
    (∀ (data : ParsedData) (seg : String) (c : CardUIConfig),
       c ∈ eligibleCards data seg →
         ∃ p ∈ data.partnerMaster,
           p.Partner_ID = c.Partner_ID ∧ jsToUpperCase p.Status = "ACTIVE")
  ∧ (∀ seg : String, eligibleCards exInactive seg = []) := by
  constructor
  · intro data seg c hc
    rw [eligibleCards] at hc
    have h1 : c ∈ segmentFiltered data seg :=
      (List.perm_insertionSort (cardLe data) _).mem_iff.mp hc
    have h2 : c ∈ statusFiltered data := (List.mem_filter.mp h1).1
    have h3 := (List.mem_filter.mp (List.mem_filter.mp h1).1).2
    rw [List.contains_iff_exists_mem_beq] at h3
    obtain ⟨pid, hpidmem, hpeq⟩ := h3
    rw [activePartnerIds] at hpidmem
    obtain ⟨p, hpfilter, hpid⟩ := List.mem_map.mp hpidmem
    have hp := List.mem_filter.mp hpfilter
    have hceq : c.Partner_ID = pid := by simpa using hpeq
    refine ⟨p, hp.1, ?_, by simpa using hp.2⟩
    rw [hpid, hceq]
  · intro seg
    have h : statusFiltered exInactive = [] := by decide
    rw [eligibleCards, segmentFiltered, h]
    rfl

/-- Witness for `status_gate`: the active-partner existence on the concrete
one-card snapshot. -/
theorem status_gate_witness :
    ∃ p ∈ exActiveCard.partnerMaster,
      p.Partner_ID = cSeg.Partner_ID ∧ jsToUpperCase p.Status = "ACTIVE" :=
  status_gate.1 exActiveCard "All" cSeg (by decide)

/-- Claim C5 counterexample: in `administrativeView`, a card whose matched
Partner has an EMPTY `Partner_Name` is rendered with the sentinel
`"Unknown"`, not with the matched partner's (empty) name as the claim
states. -/
theorem administrativeView_empty_name_cex :
    (firstPartnerFor exEmptyFields "P1").map PartnerMaster.Partner_Name = some ""
  ∧ (administrativeView exEmptyFields).map DashRow.Partner_Name = ["Unknown"]
  ∧ ("Unknown" : String) ≠ "" := by
  refine ⟨by decide, by decide, by decide⟩

/-- Claim C5 (amended): `administrativeView` emits exactly one row per
CardPresentation, in original order, never filtering; each row carries the
card's own fields, and the partner name/status and rule priority/segment are
taken from the first match in original insertion order, with the sentinels
`"Unknown"`/`"INACTIVE"`/`"0"`/`"All"` applied when no record matches OR when
the matched field is itself empty. -/
theorem administrativeView_join_spec :
    ∀ (data : ParsedData) (c : CardUIConfig),
      (administrativeView data).length = data.cardUIConfig.length
    ∧ (∀ i : Nat, (administrativeView data)[i]?
         = (data.cardUIConfig[i]?).map (dashRowFor data))
    ∧ ((dashRowFor data c).Config_ID = c.Config_ID
        ∧ (dashRowFor data c).Partner_ID = c.Partner_ID
        ∧ (dashRowFor data c).Card_Title = c.Card_Title
        ∧ (dashRowFor data c).Card_Subtitle = c.Card_Subtitle
        ∧ (dashRowFor data c).Logo_URL = c.Logo_URL
        ∧ (dashRowFor data c).Badge_Text = c.Badge_Text
        ∧ (dashRowFor data c).Bg_Color = c.Bg_Color
        ∧ (dashRowFor data c).Text_Color = c.Text_Color
        ∧ (dashRowFor data c).Benefit_1 = c.Benefit_1
        ∧ (dashRowFor data c).Benefit_2 = c.Benefit_2
        ∧ (dashRowFor data c).Benefit_3 = c.Benefit_3
        ∧ (dashRowFor data c).CTA_Label_Card = c.CTA_Label_Card)
    ∧ (dashRowFor data c).Partner_Name
        = (match (data.partnerMaster.filter (fun p => p.Partner_ID == c.Partner_ID)).head? with
           | none => "Unknown"
           | some p => if p.Partner_Name = "" then "Unknown" else p.Partner_Name)
    ∧ (dashRowFor data c).Status
        = (match (data.partnerMaster.filter (fun p => p.Partner_ID == c.Partner_ID)).head? with
           | none => "INACTIVE"
           | some p => if p.Status = "" then "INACTIVE" else p.Status)
    ∧ (dashRowFor data c).Priority
        = (match (data.displayRules.filter (fun r => r.Config_ID == c.Config_ID)).head? with
           | none => "0"
           | some r => if r.Priority = "" then "0" else r.Priority)
    ∧ (dashRowFor data c).User_Segment
        = (match (data.displayRules.filter (fun r => r.Config_ID == c.Config_ID)).head? with
           | none => "All"
           | some r => if r.User_Segment = "" then "All" else r.User_Segment) := by
  intro data c
  refine ⟨by rw [administrativeView, List.length_map], ?_, ?_, ?_, ?_, ?_, ?_⟩
  · intro i
    rw [administrativeView, List.getElem?_map]
  · exact ⟨rfl, rfl, rfl, rfl, rfl, rfl, rfl, rfl, rfl, rfl, rfl, rfl⟩
  · have hred : (dashRowFor data c).Partner_Name
        = jsOr (((firstPartnerFor data c.Partner_ID).map PartnerMaster.Partner_Name).getD "")
            "Unknown" := rfl
    rw [hred, firstPartnerFor, find?_eq_head?_filter]
    cases hh : (data.partnerMaster.filter (fun p => p.Partner_ID == c.Partner_ID)).head? with
    | none => simp [jsOr]
    | some p => simp [jsOr]
  · have hred : (dashRowFor data c).Status
        = jsOr (((firstPartnerFor data c.Partner_ID).map PartnerMaster.Status).getD "")
            "INACTIVE" := rfl
    rw [hred, firstPartnerFor, find?_eq_head?_filter]
    cases hh : (data.partnerMaster.filter (fun p => p.Partner_ID == c.Partner_ID)).head? with
    | none => simp [jsOr]
    | some p => simp [jsOr]
  · have hred : (dashRowFor data c).Priority
        = jsOr (((firstRuleFor data c.Config_ID).map DisplayRules.Priority).getD "") "0" := rfl
    rw [hred, firstRuleFor, find?_eq_head?_filter]
    cases hh : (data.displayRules.filter (fun r => r.Config_ID == c.Config_ID)).head? with
    | none => simp [jsOr]
    | some r => simp [jsOr]
  · have hred : (dashRowFor data c).User_Segment
        = jsOr (((firstRuleFor data c.Config_ID).map DisplayRules.User_Segment).getD "")
            "All" := rfl
    rw [hred, firstRuleFor, find?_eq_head?_filter]
    cases hh : (data.displayRules.filter (fun r => r.Config_ID == c.Config_ID)).head? with
    | none => simp [jsOr]
    | some r => simp [jsOr]

/-- Witness for `administrativeView_join_spec` at the concrete one-card
snapshot and index 0. -/
theorem administrativeView_join_spec_witness :
    (administrativeView exActiveCard).length = exActiveCard.cardUIConfig.length
  ∧ (administrativeView exActiveCard)[0]?
      = (exActiveCard.cardUIConfig[0]?).map (dashRowFor exActiveCard)
  ∧ (dashRowFor exActiveCard cSeg).Partner_Name
      = (match (exActiveCard.partnerMaster.filter
            (fun p => p.Partner_ID == cSeg.Partner_ID)).head? with
         | none => "Unknown"
         | some p => if p.Partner_Name = "" then "Unknown" else p.Partner_Name) :=
  ⟨(administrativeView_join_spec exActiveCard cSeg).1,
   (administrativeView_join_spec exActiveCard cSeg).2.1 0,
   (administrativeView_join_spec exActiveCard cSeg).2.2.2.1⟩

/-- Claim C9: the `dashboardRows` sentinels fire not only on a failed lookup
but also when the matched field is the empty string: an empty matched
partner name yields `"Unknown"`, an empty matched status `"INACTIVE"`, an
empty matched priority `"0"`, an empty matched segment `"All"`. -/
theorem dashRow_empty_field_sentinels :
    ∀ (data : ParsedData) (c : CardUIConfig) (p : PartnerMaster) (r : DisplayRules),
      (firstPartnerFor data c.Partner_ID = some p → p.Partner_Name = "" →
        (dashRowFor data c).Partner_Name = "Unknown")
    ∧ (firstPartnerFor data c.Partner_ID = some p → p.Status = "" →
        (dashRowFor data c).Status = "INACTIVE")
    ∧ (firstRuleFor data c.Config_ID = some r → r.Priority = "" →
        (dashRowFor data c).Priority = "0")
    ∧ (firstRuleFor data c.Config_ID = some r → r.User_Segment = "" →
        (dashRowFor data c).User_Segment = "All") := by
  intro data c p r
  refine ⟨?_, ?_, ?_, ?_⟩
  · intro hfind hempty
    have hred : (dashRowFor data c).Partner_Name
        = jsOr (((firstPartnerFor data c.Partner_ID).map PartnerMaster.Partner_Name).getD "")
            "Unknown" := rfl
    rw [hred, hfind]
    simp [jsOr, hempty]
  · intro hfind hempty
    have hred : (dashRowFor data c).Status
        = jsOr (((firstPartnerFor data c.Partner_ID).map PartnerMaster.Status).getD "")
            "INACTIVE" := rfl
    rw [hred, hfind]
    simp [jsOr, hempty]
  · intro hfind hempty
    have hred : (dashRowFor data c).Priority
        = jsOr (((firstRuleFor data c.Config_ID).map DisplayRules.Priority).getD "") "0" := rfl
    rw [hred, hfind]
    simp [jsOr, hempty]
  · intro hfind hempty
    have hred : (dashRowFor data c).User_Segment
        = jsOr (((firstRuleFor data c.Config_ID).map DisplayRules.User_Segment).getD "")
            "All" := rfl
    rw [hred, hfind]
    simp [jsOr, hempty]

/-- Witness for `dashRow_empty_field_sentinels` on the concrete snapshot with
empty matched fields. -/
theorem dashRow_empty_field_sentinels_witness :
    (dashRowFor exEmptyFields cSeg).Partner_Name = "Unknown"
  ∧ (dashRowFor exEmptyFields cSeg).Status = "INACTIVE"
  ∧ (dashRowFor exEmptyFields cSeg).Priority = "0"
  ∧ (dashRowFor exEmptyFields cSeg).User_Segment = "All" :=
  ⟨(dashRow_empty_field_sentinels exEmptyFields cSeg
      { Partner_ID := "P1", Partner_Name := "", Status := "" }
      { Rule_ID := "R1", Config_ID := "C1", User_Segment := "", Priority := "" }).1
      (by decide) rfl,
   (dashRow_empty_field_sentinels exEmptyFields cSeg
      { Partner_ID := "P1", Partner_Name := "", Status := "" }
      { Rule_ID := "R1", Config_ID := "C1", User_Segment := "", Priority := "" }).2.1
      (by decide) rfl,
   (dashRow_empty_field_sentinels exEmptyFields cSeg
      { Partner_ID := "P1", Partner_Name := "", Status := "" }
      { Rule_ID := "R1", Config_ID := "C1", User_Segment := "", Priority := "" }).2.2.1
      (by decide) rfl,
   (dashRow_empty_field_sentinels exEmptyFields cSeg
      { Partner_ID := "P1", Partner_Name := "", Status := "" }
      { Rule_ID := "R1", Config_ID := "C1", User_Segment := "", Priority := "" }).2.2.2
      (by decide) rfl⟩

/-- Claim C2 counterexample: for a rule whose `Priority` cell is `"abc"`
(non-empty, not parseable), the engine's parsed priority is `NaN` (modelled
`none`), not the integer `0` that the claim requires. -/
theorem priority_unparseable_cex :
    rulePriorityVal ruleAbc = none ∧ rulePriorityVal ruleAbc ≠ some 0 := by
  refine ⟨by decide, by decide⟩

/-- Claim C2 (amended): the engine's priority is `parseInt` of the first
matching rule's `Priority` cell with `'0'` substituted for an absent rule or
empty cell — so it is `0` when the rule is absent or the cell empty, the
decimal value on an all-digit cell, and `NaN` (`none`), not `0`, when the
cell starts with a character that is no digit, sign or whitespace; the
parse is total and never throws. -/
theorem priority_parse_spec :
    ∀ (data : ParsedData) (c : CardUIConfig) (r : DisplayRules),
      (firstRuleFor data c.Config_ID = none → cardPriority data c = some 0)
    ∧ (firstRuleFor data c.Config_ID = some r → cardPriority data c = rulePriorityVal r)
    ∧ (r.Priority = "" → rulePriorityVal r = some 0)
    ∧ (∀ (ch : Char) (cs : List Char), r.Priority.data = ch :: cs →
         (∀ d ∈ r.Priority.data, d.isDigit = true) →
         rulePriorityVal r = some (digitsVal r.Priority.data))
    ∧ (∀ (ch : Char) (cs : List Char), r.Priority.data = ch :: cs →
         ch.isDigit = false → isJsWhitespace ch = false → ch ≠ '-' → ch ≠ '+' →
         rulePriorityVal r = none) := by
  intro data c r
  have hne : ∀ ch : Char, ∀ cs : List Char, r.Priority.data = ch :: cs →
      r.Priority ≠ "" := by
    intro ch cs hdata he
    rw [he] at hdata
    exact List.noConfusion hdata
  refine ⟨?_, ?_, ?_, ?_, ?_⟩
  · intro h
    rw [cardPriority, h]
    rfl
  · intro h
    rw [cardPriority, h, rulePriorityVal]
    rfl
  · intro h
    rw [rulePriorityVal, h]
    rfl
  · intro ch cs hdata hd
    rw [rulePriorityVal, jsOr, if_neg (hne ch cs hdata)]
    exact jsParseInt_digits hdata hd
  · intro ch cs hdata hcd hcw hcm hcp
    rw [rulePriorityVal, jsOr, if_neg (hne ch cs hdata)]
    exact jsParseInt_none_of_no_digit hdata hcd hcw hcm hcp

/-- Witness for `priority_parse_spec` at concrete rules. -/
theorem priority_parse_spec_witness :
    cardPriority exActiveCard cSeg = some 0
  ∧ rulePriorityVal ({} : DisplayRules) = some 0
  ∧ rulePriorityVal { Priority := "57" } = some 57 := by
  refine ⟨(priority_parse_spec exActiveCard cSeg ({} : DisplayRules)).1 (by decide),
    (priority_parse_spec exActiveCard cSeg ({} : DisplayRules)).2.2.1 rfl, ?_⟩
  have h := (priority_parse_spec exActiveCard cSeg { Priority := "57" }).2.2.2.1
    '5' ['7'] rfl (by decide)
  rw [h]
  decide

/-- Claim C1 counterexample: with eligible cards `A`, `B`, `C` whose first
matching rules carry priorities `"abc"`, `"5"`, `"10"`, the engine returns
`[A, C, B]`: the unparseable priority is `NaN`, which the sort comparator
treats as tying with everything, so the result is NOT sorted descending by
the spec's integer priorities (which read `"abc"` as `0`). -/
theorem eligible_order_nan_cex :
    (eligibleCards exNaN "All").map CardUIConfig.Config_ID = ["A", "C", "B"]
  ∧ (eligibleCards exNaN "All").map (specPriority exNaN) = [0, 10, 5]
  ∧ ¬ List.Sorted (fun x y : Int => y ≤ x)
      ((eligibleCards exNaN "All").map (specPriority exNaN)) := by
  refine ⟨by decide, by decide, ?_⟩
  intro hs
  rw [show (eligibleCards exNaN "All").map (specPriority exNaN)
      = [(0 : Int), 10, 5] from by decide] at hs
  have h10 := List.rel_of_sorted_cons hs 10 (by simp)
  omega

/-- Claim C1 (amended): whenever every eligible card's first-rule priority is
empty or parses (no `NaN`), `eligibleCards` returns the eligible cards sorted
descending by integer priority, the sort is stable (the subsequence at each
priority value is preserved from the unsorted eligible list), and the result
is a permutation of the eligible cards; in particular eligible priorities
`[5, 5, 10]` in original order `[A, B, C]` come back as `[C, A, B]`. -/
theorem eligible_sorted_stable (data : ParsedData) (seg : String)
    (H : ∀ c ∈ segmentFiltered data seg, (cardPriority data c).isSome = true) :
    List.Sorted (fun x y => specPriority data y ≤ specPriority data x)
      (eligibleCards data seg)
  ∧ (∀ pv : Int,
      (eligibleCards data seg).filter (fun c => specPriority data c == pv)
        = (segmentFiltered data seg).filter (fun c => specPriority data c == pv))
  ∧ (eligibleCards data seg).Perm (segmentFiltered data seg)
  ∧ (eligibleCards exStable "All").map CardUIConfig.Config_ID = ["C", "A", "B"] :=
  ⟨sorted_insertionSort_of_isSome data _ H,
   fun pv => filter_insertionSort_key data pv _ H,
   List.perm_insertionSort _ _,
   by decide⟩

/-- Witness for `eligible_sorted_stable` on the concrete `[5, 5, 10]`
snapshot. -/
theorem eligible_sorted_stable_witness :
    List.Sorted (fun x y => specPriority exStable y ≤ specPriority exStable x)
      (eligibleCards exStable "All")
  ∧ (eligibleCards exStable "All").Perm (segmentFiltered exStable "All")
  ∧ (eligibleCards exStable "All").map CardUIConfig.Config_ID = ["C", "A", "B"] :=
  ⟨(eligible_sorted_stable exStable "All" (by decide)).1,
   (eligible_sorted_stable exStable "All" (by decide)).2.2.1,
   (eligible_sorted_stable exStable "All" (by decide)).2.2.2⟩
